import Mathlib

/-!
Verification model of `All_CA_Streamlit.py` (ca-city-county-lookup).

The core pipeline is embedded shallowly:
* Python values occurring as attribute values are modelled by `PyVal`
  (`None`, strings, JSON numbers).
* JSON object fields that may be missing, `null`, or present are modelled
  by `JField`.
* Python strings that get split/stripped are modelled as `List Char`;
  `str.split(",")` is `pySplitChar`, `str.strip()` is `pyStrip`, and list
  indexing (which can raise `IndexError`) is `pyIndex`.
* The remote services' parsed JSON bodies are oracle inputs (`World`):
  `geocode_address`, `query_polygon_layer_point` and `get_city_county`
  are functions of the address and of those bodies.  `get_city_county`
  additionally records the sequence of remote requests it issues.
* Latitude/longitude values are modelled as rationals; the Web Mercator
  reprojection lands in `ℝ` (its output feeds only the spatial query,
  whose reply is part of the oracle).
* A raised Python exception that is not an HTTP/transport failure is
  modelled by `Except.error` (`IndexError`, `KeyError`).
-/

/-- A Python exception raised by the pipeline code itself (as opposed to a
transport failure raised inside `requests`). -/
inductive PyErr : Type where
  | indexError : PyErr
  | keyError : PyErr
deriving DecidableEq

/-- A Python value as it occurs among JSON attribute values:
`None`, a string, or a number. -/
inductive PyVal : Type where
  | none : PyVal
  | str : String → PyVal
  | num : Int → PyVal
deriving DecidableEq

/-- A field of a JSON object: missing, JSON `null`, or a value. -/
inductive JField (α : Type) : Type where
  | absent : JField α
  | null : JField α
  | val : α → JField α
deriving DecidableEq

/-- `data.get(key) or default` / `candidate.get(key, default)`:
absent and `null` both collapse to the default. -/
def JField.orDefault {α : Type} (f : JField α) (d : α) : α :=
  match f with
  | JField.val a => a
  | _ => d

/-- A parsed `attributes` object: field names to values. -/
abbrev Attrs := List (String × PyVal)

/-- Python `attrs.get(k)`: the value stored under `k`, or `None`. -/
def dictGet (d : Attrs) (k : String) : PyVal :=
  match d with
  | [] => PyVal.none
  | (k2, v) :: rest => if k2 = k then v else dictGet rest k

/-- Python list indexing `l[i]`: raises `IndexError` out of bounds. -/
def pyIndex {α : Type} : List α → Nat → Except PyErr α
  | [], _ => Except.error PyErr.indexError
  | a :: _, 0 => Except.ok a
  | _ :: rest, i + 1 => pyIndex rest i

/-- Python `s.split(sep)` for a one-character separator: every occurrence
splits, empty segments are kept, and `"".split(sep) == [""]`. -/
def pySplitChar (sep : Char) : List Char → List (List Char)
  | [] => [[]]
  | a :: rest =>
    match pySplitChar sep rest with
    | [] => [[]]
    | s :: ss => if a = sep then [] :: s :: ss else (a :: s) :: ss

/-- Python `s.strip()`: drop leading and trailing whitespace. -/
def pyStrip (l : List Char) : List Char :=
  ((l.dropWhile Char.isWhitespace).reverse.dropWhile Char.isWhitespace).reverse

/-- One geocoder candidate: its `location` (`y` = latitude, `x` =
longitude) and its matched-address string (`candidate.get("address", "")`
defaults to the empty string when the field is missing). -/
structure GeoCandidate : Type where
  locY : ℚ
  locX : ℚ
  address : Option (List Char)
deriving DecidableEq

/-- The parsed body of the geocoder response: its candidate list. -/
structure GeocodeResponse : Type where
  candidates : List GeoCandidate
deriving DecidableEq

/-- Line 32 of the source: `match_addr.split(",")[1].strip()` when the
address contains a comma, else `None`. -/
def postal_city_of (match_addr : List Char) : Except PyErr (Option (List Char)) :=
  if (',' : Char) ∈ match_addr then
    (pyIndex (pySplitChar ',' match_addr) 1).map (fun seg => some (pyStrip seg))
  else
    Except.ok Option.none

/-- `geocode_address`, given the parsed response body: `(None, None, None)`
when the candidate list is empty (modelled as `Option.none`), otherwise
the first candidate's latitude, longitude and derived postal city. -/
def geocode_address (resp : GeocodeResponse) :
    Except PyErr (Option (ℚ × ℚ × Option (List Char))) :=
  match resp.candidates with
  | [] => Except.ok Option.none
  | c :: _ =>
    match postal_city_of (c.address.getD []) with
    | Except.error e => Except.error e
    | Except.ok pc => Except.ok (some (c.locY, c.locX, pc))

/-- `max_lat = 85.05112878` from `wgs84_to_web_mercator`. -/
def max_lat : ℚ := 85.05112878

/-- `origin_shift = 20037508.342789244` from `wgs84_to_web_mercator`. -/
def origin_shift : ℚ := 20037508.342789244

/-- Line 39 of the source: `lat = max(min(lat, max_lat), -max_lat)`. -/
def clampLat (lat : ℚ) : ℚ :=
  max (min lat max_lat) (-max_lat)

/-- `wgs84_to_web_mercator`: clamp the latitude, then apply the spherical
Web Mercator formulas.  Inputs are the (rational) coordinates coming from
the geocoder; the output lives in `ℝ` because of `log`/`tan`. -/
noncomputable def wgs84_to_web_mercator (lat lon : ℚ) : ℝ × ℝ :=
  let lat2 : ℚ := clampLat lat
  ((lon : ℝ) * (origin_shift : ℝ) / 180,
    Real.log (Real.tan ((90 + (lat2 : ℝ)) * Real.pi / 360)) * (origin_shift : ℝ) / Real.pi)

/-- One element of the response's `features` list: its `attributes`
field, which may be missing, `null`, or an object. -/
structure QFeature : Type where
  attributes : JField Attrs
deriving DecidableEq

/-- The parsed body of a boundary-layer query response: its `features`
field, which may be missing, `null`, or a list. -/
structure QueryResponse : Type where
  features : JField (List QFeature)
deriving DecidableEq

/-- `query_polygon_layer_point`, given the projected point and the parsed
response body.  `data.get("features") or []` turns a missing/`null`
`features` field into `[]`; an empty feature list yields `None`;
otherwise `feats[0]["attributes"]` is returned — which raises `KeyError`
when the first feature has no `attributes` key, and is Python `None` when
that key holds JSON `null`. -/
def query_polygon_layer_point (x_merc y_merc : ℝ) (resp : QueryResponse) :
    Except PyErr (Option Attrs) :=
  match resp.features.orDefault [] with
  | [] => Except.ok Option.none
  | f :: _ =>
    match f.attributes with
    | JField.absent => Except.error PyErr.keyError
    | JField.null => Except.ok Option.none
    | JField.val a => Except.ok (some a)

/-- The candidate-key loop of `extract_first`: return the value of the
first key whose value is not in `(None, "", " ")`. -/
def extractLoop (d : Attrs) : List String → Option PyVal
  | [] => Option.none
  | k :: ks =>
    let v := dictGet d k
    if v = PyVal.none ∨ v = PyVal.str "" ∨ v = PyVal.str " " then extractLoop d ks
    else some v

/-- `extract_first(attrs, keys)`: `None` when `attrs` is Python `None` or
an empty dict (`if not attrs`), else the first usable candidate value. -/
def extract_first (attrs : Option Attrs) (keys : List String) : Option PyVal :=
  match attrs with
  | Option.none => Option.none
  | some d => if d = [] then Option.none else extractLoop d keys

/-- The three parsed remote-response bodies a single lookup can consume:
one from the geocoder, one per boundary layer.  `get_city_county` is a
function of the address and of this oracle. -/
structure World : Type where
  geocode : GeocodeResponse
  county : QueryResponse
  city : QueryResponse
deriving DecidableEq

/-- One remote HTTP request issued by the pipeline, identified by its
endpoint. -/
inductive RemoteCall : Type where
  | geocode : RemoteCall
  | county : RemoteCall
  | city : RemoteCall
deriving DecidableEq

/-- The result dict assembled at the end of `get_city_county`. -/
structure LookupResult : Type where
  address : String
  latitude : ℚ
  longitude : ℚ
  postal_city : Option (List Char)
  county : Option PyVal
  city : PyVal
deriving DecidableEq

deriving instance DecidableEq for Except

/-- Outcome of one `get_city_county` call: the returned value (or raised
exception), together with the remote requests issued, in order. -/
structure RunResult : Type where
  outcome : Except PyErr (Option LookupResult)
  requests : List RemoteCall
deriving DecidableEq

/-- `get_city_county(address)`: geocode, early-return `None` when
`not lat or not lon` (Python truthiness: `None` or `0`), reproject,
query the county then the city layer, reconcile fields, substitute the
`"Unincorporated"` sentinel, assemble the result.  Each `requests.get`
call is recorded in `requests` before its body is parsed. -/
noncomputable def get_city_county (address : String) (w : World) : RunResult :=
  match geocode_address w.geocode with
  | Except.error e => { outcome := Except.error e, requests := [RemoteCall.geocode] }
  | Except.ok Option.none => { outcome := Except.ok Option.none, requests := [RemoteCall.geocode] }
  | Except.ok (some (lat, lon, postal_city)) =>
    if lat = 0 ∨ lon = 0 then
      { outcome := Except.ok Option.none, requests := [RemoteCall.geocode] }
    else
      let xy := wgs84_to_web_mercator lat lon
      match query_polygon_layer_point xy.1 xy.2 w.county with
      | Except.error e =>
        { outcome := Except.error e,
          requests := [RemoteCall.geocode, RemoteCall.county] }
      | Except.ok county_attrs =>
        let county_name := extract_first county_attrs ["County", "POLYGON_NM"]
        match query_polygon_layer_point xy.1 xy.2 w.city with
        | Except.error e =>
          { outcome := Except.error e,
            requests := [RemoteCall.geocode, RemoteCall.county, RemoteCall.city] }
        | Except.ok city_attrs =>
          let city_name := extract_first city_attrs ["NAME"]
          let city_label :=
            match city_name with
            | Option.none => PyVal.str "Unincorporated"
            | some v => v
          { outcome := Except.ok (some
              { address := address, latitude := lat, longitude := lon,
                postal_city := postal_city, county := county_name,
                city := city_label }),
            requests := [RemoteCall.geocode, RemoteCall.county, RemoteCall.city] }

/-- The exact skip test of `extract_first`: Python `v in (None, "", " ")` —
`None`, the empty string, or the one-character string of a single space. -/
def skippedVal (v : PyVal) : Prop :=
  v = PyVal.none ∨ v = PyVal.str "" ∨ v = PyVal.str " "

instance (v : PyVal) : Decidable (skippedVal v) := by
  unfold skippedVal
  infer_instance

/-- An ambient store of results persisting across calls.  The source keeps
no such state (no cache, no mutable module globals); the model makes that
explicit by threading a store the pipeline never reads or writes. -/
abbrev LookupStore := List (String × RunResult)

/-- One `get_city_county` call run against an ambient store: the call
consults only the address and the remote responses, so the store passes
through untouched. -/
noncomputable def get_city_county_with_state (address : String) (w : World)
    (st : LookupStore) : RunResult × LookupStore :=
  (get_city_county address w, st)

/-- A world whose geocoder response has an empty candidate list. -/
def c1MissWorld : World :=
  { geocode := { candidates := [] },
    county := { features := JField.val [] },
    city := { features := JField.val [] } }

/-- A world whose geocoder returns one candidate lying at latitude 0:
the candidate list is non-empty, yet `not lat` is true in Python. -/
def c1ZeroWorld : World :=
  { geocode := { candidates := [{ locY := 0, locX := 10, address := Option.none }] },
    county := { features := JField.val [] },
    city := { features := JField.val [] } }

/-- A world where geocoding succeeds, the county layer matches a polygon
with a `County` attribute, and the city layer returns zero features. -/
def c2KernWorld : World :=
  { geocode := { candidates := [{ locY := 2, locX := 3, address := Option.none }] },
    county := { features := JField.val [{ attributes := JField.val [("County", PyVal.str "Kern")] }] },
    city := { features := JField.val [] } }

/-- A world whose geocoder response has an empty candidate list. -/
def c5MissWorld : World :=
  { geocode := { candidates := [] },
    county := { features := JField.val [] },
    city := { features := JField.val [] } }

/-- A world with one geocoder candidate at longitude 0: the geocoder
"succeeded" (non-empty candidate list), yet the pipeline stops early. -/
def c5ZeroWorld : World :=
  { geocode := { candidates := [{ locY := 5, locX := 0, address := Option.none }] },
    county := { features := JField.val [] },
    city := { features := JField.val [] } }

/-- A geocoder candidate whose matched address contains no comma. -/
def c9Cand : GeoCandidate :=
  { locY := 1, locX := 2, address := some "1600 Harbor Blvd".toList }

/-- A geocoder response holding exactly the candidate `c9Cand`. -/
def c9Resp : GeocodeResponse :=
  { candidates := [c9Cand] }

/-- A world with a successful geocode and two boundary matches. -/
def c10World : World :=
  { geocode := { candidates := [{ locY := 38, locX := -121, address := some "1 Capitol Mall, Sacramento, CA".toList }] },
    county := { features := JField.val [{ attributes := JField.val [("County", PyVal.str "Sacramento")] }] },
    city := { features := JField.val [{ attributes := JField.val [("NAME", PyVal.str "Sacramento")] }] } }

/-! ## Shared lemmas about the string helpers and the geocoder parse -/

lemma pySplitChar_exists_cons (sep : Char) (l : List Char) :
    ∃ s ss, pySplitChar sep l = s :: ss := by
  induction l with
  | nil => exact ⟨[], [], rfl⟩
  | cons a rest ih =>
    obtain ⟨s, ss, h⟩ := ih
    by_cases hc : a = sep
    · exact ⟨[], s :: ss, by simp [pySplitChar, h, hc]⟩
    · exact ⟨a :: s, ss, by simp [pySplitChar, h, hc]⟩

lemma mem_iff_two_le_pySplitChar (sep : Char) (l : List Char) :
    sep ∈ l ↔ 2 ≤ (pySplitChar sep l).length := by
  induction l with
  | nil => simp [pySplitChar]
  | cons a rest ih =>
    obtain ⟨s, ss, h⟩ := pySplitChar_exists_cons sep rest
    rw [h] at ih
    by_cases hc : a = sep
    · subst hc
      simp [pySplitChar, h]
    · simp [pySplitChar, h, hc, List.mem_cons, Ne.symm hc, ih]

lemma postal_city_of_eq_ok (ma : List Char) :
    postal_city_of ma = Except.ok
      (match pySplitChar ',' ma with
       | _ :: b :: _ => some (pyStrip b)
       | _ => Option.none) := by
  obtain ⟨s, ss, h⟩ := pySplitChar_exists_cons (',' : Char) ma
  by_cases hm : (',' : Char) ∈ ma
  · have h2 : 2 ≤ (pySplitChar ',' ma).length := (mem_iff_two_le_pySplitChar _ _).mp hm
    rw [h] at h2
    cases ss with
    | nil => simp at h2
    | cons b rest =>
      rw [postal_city_of, if_pos hm, h]
      rfl
  · have h2 : ¬ 2 ≤ (pySplitChar ',' ma).length := fun hh =>
      hm ((mem_iff_two_le_pySplitChar _ _).mpr hh)
    rw [h] at h2
    cases ss with
    | nil => rw [postal_city_of, if_neg hm, h]
    | cons b rest => simp at h2

lemma geocode_address_cons (resp : GeocodeResponse) (c : GeoCandidate)
    (cs : List GeoCandidate) (h : resp.candidates = c :: cs) :
    geocode_address resp = Except.ok (some (c.locY, c.locX,
      match pySplitChar ',' (c.address.getD []) with
      | _ :: b :: _ => some (pyStrip b)
      | _ => Option.none)) := by
  simp [geocode_address, h, postal_city_of_eq_ok]

lemma geocode_address_isOk (resp : GeocodeResponse) :
    ∃ r, geocode_address resp = Except.ok r := by
  cases h : resp.candidates with
  | nil => exact ⟨Option.none, by simp [geocode_address, h]⟩
  | cons c cs => exact ⟨_, geocode_address_cons resp c cs h⟩

/-! ## Shared lemmas about `extract_first` -/

lemma extractLoop_cons (d : Attrs) (k : String) (ks : List String) :
    extractLoop d (k :: ks) =
      if dictGet d k = PyVal.none ∨ dictGet d k = PyVal.str "" ∨ dictGet d k = PyVal.str " "
      then extractLoop d ks else some (dictGet d k) := rfl

lemma extractLoop_all_skipped (d : Attrs) :
    ∀ ks : List String, (∀ k ∈ ks, skippedVal (dictGet d k)) →
      extractLoop d ks = Option.none := by
  intro ks
  induction ks with
  | nil => intro _; rfl
  | cons k t ih =>
    intro hall
    have hk : dictGet d k = PyVal.none ∨ dictGet d k = PyVal.str "" ∨ dictGet d k = PyVal.str " " :=
      hall k (List.mem_cons_self k t)
    rw [extractLoop_cons, if_pos hk]
    exact ih fun k2 hk2 => hall k2 (List.mem_cons_of_mem k hk2)

lemma extractLoop_first_usable (d : Attrs) :
    ∀ (ks1 : List String) (k : String) (ks2 : List String),
      (∀ k2 ∈ ks1, skippedVal (dictGet d k2)) →
      ¬ skippedVal (dictGet d k) →
      extractLoop d (ks1 ++ k :: ks2) = some (dictGet d k) := by
  intro ks1
  induction ks1 with
  | nil =>
    intro k ks2 _ hk
    have hk2 : ¬(dictGet d k = PyVal.none ∨ dictGet d k = PyVal.str "" ∨
        dictGet d k = PyVal.str " ") := hk
    rw [List.nil_append, extractLoop_cons, if_neg hk2]
  | cons k1 t ih =>
    intro k ks2 hall hk
    have hk1 : dictGet d k1 = PyVal.none ∨ dictGet d k1 = PyVal.str "" ∨
        dictGet d k1 = PyVal.str " " := hall k1 (List.mem_cons_self k1 t)
    rw [List.cons_append, extractLoop_cons, if_pos hk1]
    exact ih k ks2 (fun k2 hk2 => hall k2 (List.mem_cons_of_mem k1 hk2)) hk

lemma dictGet_nil (k : String) : dictGet [] k = PyVal.none := rfl

lemma extract_first_usable_head (d : Attrs) (k : String) (rest : List String)
    (hk : ¬ skippedVal (dictGet d k)) :
    extract_first (some d) (k :: rest) = some (dictGet d k) := by
  have hd : d ≠ [] := by
    intro hde
    exact hk (by rw [hde, dictGet_nil]; exact Or.inl rfl)
  simp only [extract_first, if_neg hd]
  exact extractLoop_first_usable d [] k rest (by intro k2 hk2; cases hk2) hk

/-! ## Shared lemmas about the orchestrator -/

lemma get_city_county_requests_cases (address : String) (w : World) :
    (get_city_county address w).requests = [RemoteCall.geocode] ∨
    (get_city_county address w).requests = [RemoteCall.geocode, RemoteCall.county] ∨
    (get_city_county address w).requests =
      [RemoteCall.geocode, RemoteCall.county, RemoteCall.city] := by
  cases hg : geocode_address w.geocode with
  | error e => simp [get_city_county, hg]
  | ok o =>
    cases o with
    | none => simp [get_city_county, hg]
    | some t =>
      obtain ⟨lat, lon, pc⟩ := t
      by_cases hz : lat = 0 ∨ lon = 0
      · simp [get_city_county, hg, hz]
      · cases hc : query_polygon_layer_point (wgs84_to_web_mercator lat lon).1
            (wgs84_to_web_mercator lat lon).2 w.county with
        | error e => simp [get_city_county, hg, hz, hc]
        | ok ca =>
          cases hci : query_polygon_layer_point (wgs84_to_web_mercator lat lon).1
              (wgs84_to_web_mercator lat lon).2 w.city with
          | error e => simp [get_city_county, hg, hz, hc, hci]
          | ok cia => simp [get_city_county, hg, hz, hc, hci]

lemma query_city_empty (x y : ℝ) (resp : QueryResponse)
    (h : resp.features.orDefault [] = []) :
    query_polygon_layer_point x y resp = Except.ok Option.none := by
  simp [query_polygon_layer_point, h]

/-! ## Claim theorems -/

/-- Claim C1, amended.  `get_city_county` returns `None` iff the geocoder
candidate list is empty OR the first candidate's latitude or longitude is
`0` (the source tests Python truthiness, `if not lat or not lon`, not
presence); when the candidate list is empty the call short-circuits: it
returns `None` having issued only the single geocode request. -/
theorem c1_geocode_miss_amended (address : String) (w : World) :
    ((get_city_county address w).outcome = Except.ok Option.none ↔
      (w.geocode.candidates = [] ∨
        ∃ c cs, w.geocode.candidates = c :: cs ∧ (c.locY = 0 ∨ c.locX = 0))) ∧
    (w.geocode.candidates = [] →
      (get_city_county address w).outcome = Except.ok Option.none ∧
      (get_city_county address w).requests = [RemoteCall.geocode]) := by
  cases hcand : w.geocode.candidates with
  | nil =>
    have hg : geocode_address w.geocode = Except.ok Option.none := by
      simp [geocode_address, hcand]
    exact ⟨by simp [get_city_county, hg, hcand], fun _ => by simp [get_city_county, hg]⟩
  | cons c cs =>
    have hg := geocode_address_cons w.geocode c cs hcand
    refine ⟨?_, ?_⟩
    · by_cases hz : c.locY = 0 ∨ c.locX = 0
      · simp only [get_city_county, hg, if_pos hz]
        simp [hz]
      · cases hc : query_polygon_layer_point (wgs84_to_web_mercator c.locY c.locX).1
            (wgs84_to_web_mercator c.locY c.locX).2 w.county with
        | error e =>
          simp only [get_city_county, hg, if_neg hz, hc]
          simp [hz]
        | ok ca =>
          cases hci : query_polygon_layer_point (wgs84_to_web_mercator c.locY c.locX).1
              (wgs84_to_web_mercator c.locY c.locX).2 w.city with
          | error e =>
            simp only [get_city_county, hg, if_neg hz, hc, hci]
            simp [hz]
          | ok cia =>
            simp only [get_city_county, hg, if_neg hz, hc, hci]
            simp [hz]
    · intro h
      simp at h

/-- Claim C1 counterexample: with a non-empty candidate list whose first
candidate sits at latitude 0, `get_city_county` still returns `None`,
so "None iff the candidate list is empty" fails as stated. -/
theorem c1_geocode_miss_cex :
    (get_city_county "4 Zero Rd" c1ZeroWorld).outcome = Except.ok Option.none ∧
    c1ZeroWorld.geocode.candidates ≠ [] := by decide

/-- Claim C1 witness: for an empty candidate list the amended theorem
yields `None` and a one-request trace. -/
theorem c1_geocode_miss_witness :
    (get_city_county "3 Miss Ave" c1MissWorld).outcome = Except.ok Option.none ∧
    (get_city_county "3 Miss Ave" c1MissWorld).requests = [RemoteCall.geocode] :=
  (c1_geocode_miss_amended "3 Miss Ave" c1MissWorld).2 rfl

/-- Claim C2: when geocoding succeeds (with Python-truthy coordinates) and
the city boundary query returns zero features, the lookup completes with
`city = "Unincorporated"` while `county` is whatever the county query
yielded after reconciliation over `["County", "POLYGON_NM"]`. -/
theorem c2_unincorporated_sentinel (address : String) (w : World)
    (lat lon : ℚ) (pc : Option (List Char)) (ca : Option Attrs)
    (hgeo : geocode_address w.geocode = Except.ok (some (lat, lon, pc)))
    (hz : ¬(lat = 0 ∨ lon = 0))
    (hcounty : query_polygon_layer_point (wgs84_to_web_mercator lat lon).1
        (wgs84_to_web_mercator lat lon).2 w.county = Except.ok ca)
    (hcity : w.city.features.orDefault [] = []) :
    (get_city_county address w).outcome = Except.ok (some
      { address := address, latitude := lat, longitude := lon, postal_city := pc,
        county := extract_first ca ["County", "POLYGON_NM"],
        city := PyVal.str "Unincorporated" }) := by
  have hcq : query_polygon_layer_point (wgs84_to_web_mercator lat lon).1
      (wgs84_to_web_mercator lat lon).2 w.city = Except.ok Option.none :=
    query_city_empty _ _ _ hcity
  simp only [get_city_county, hgeo, if_neg hz, hcounty, hcq]
  rfl

/-- Claim C2 witness: a concrete run in which the city layer is empty and
the county layer matched `Kern`. -/
theorem c2_unincorporated_sentinel_witness :
    (get_city_county "5 Oildale Way" c2KernWorld).outcome = Except.ok (some
      { address := "5 Oildale Way", latitude := 2, longitude := 3,
        postal_city := Option.none,
        county := extract_first (some [("County", PyVal.str "Kern")]) ["County", "POLYGON_NM"],
        city := PyVal.str "Unincorporated" }) :=
  c2_unincorporated_sentinel "5 Oildale Way" c2KernWorld 2 3 Option.none
    (some [("County", PyVal.str "Kern")]) (by decide) (by decide) (by decide) (by decide)

/-- Claim C3, amended.  `extract_first` skips a candidate key exactly when
its value is absent (`None`), the empty string, or the one-character
string `" "` — not arbitrary whitespace-only strings — returning the
first other value, and `None` when attributes are absent or no candidate
is usable; in particular `"  "` (two spaces) is returned, not skipped. -/
theorem c3_blank_treatment_amended :
    (∀ (d : Attrs) (ks1 : List String) (k : String) (ks2 : List String),
      (∀ k2 ∈ ks1, skippedVal (dictGet d k2)) →
      ¬ skippedVal (dictGet d k) →
      extract_first (some d) (ks1 ++ k :: ks2) = some (dictGet d k)) ∧
    (∀ (d : Attrs) (ks : List String),
      (∀ k2 ∈ ks, skippedVal (dictGet d k2)) →
      extract_first (some d) ks = Option.none) ∧
    (∀ ks : List String, extract_first Option.none ks = Option.none) ∧
    extract_first (some [("County", PyVal.str "  "), ("POLYGON_NM", PyVal.str "Placer")])
      ["County", "POLYGON_NM"] = some (PyVal.str "  ") := by
  refine ⟨?_, ?_, fun ks => rfl, by decide⟩
  · intro d ks1 k ks2 hall hk
    have hd : d ≠ [] := by
      intro hde
      exact hk (by rw [hde, dictGet_nil]; exact Or.inl rfl)
    simp only [extract_first, if_neg hd]
    exact extractLoop_first_usable d ks1 k ks2 hall hk
  · intro d ks hall
    by_cases hd : d = []
    · simp [extract_first, hd]
    · simp only [extract_first, if_neg hd]
      exact extractLoop_all_skipped d ks hall

/-- Claim C3 counterexample: the whitespace-only value `"  "` (two
spaces) is NOT skipped — `extract_first` returns it instead of the later
`"Placer"`, refuting "skips … whitespace-only" as stated. -/
theorem c3_blank_treatment_cex :
    extract_first (some [("County", PyVal.str "  "), ("POLYGON_NM", PyVal.str "Placer")])
      ["County", "POLYGON_NM"] = some (PyVal.str "  ") ∧
    "  ".toList.all Char.isWhitespace = true ∧
    some (PyVal.str "  ") ≠ some (PyVal.str "Placer") := by decide

/-- Claim C3 witness: the empty string under `County` is skipped and the
later `POLYGON_NM` value is returned. -/
theorem c3_blank_treatment_witness :
    extract_first (some [("County", PyVal.str ""), ("POLYGON_NM", PyVal.str "Placer")])
      (["County"] ++ "POLYGON_NM" :: []) =
      some (dictGet [("County", PyVal.str ""), ("POLYGON_NM", PyVal.str "Placer")] "POLYGON_NM") :=
  c3_blank_treatment_amended.1 [("County", PyVal.str ""), ("POLYGON_NM", PyVal.str "Placer")]
    ["County"] "POLYGON_NM" [] (by decide) (by decide)

/-- Claim C4, amended.  `query_polygon_layer_point` returns `None` exactly
when the parsed body has no usable feature (missing/`null`/empty
`features`, or a first feature whose `attributes` is `null`); but a first
feature LACKING the `attributes` key raises `KeyError` — so not every
malformed body is treated as "no match". -/
theorem c4_malformed_body_amended (x y : ℝ) (resp : QueryResponse) :
    (query_polygon_layer_point x y resp = Except.ok Option.none ↔
      (resp.features.orDefault [] = [] ∨
        ∃ f fs, resp.features.orDefault [] = f :: fs ∧ f.attributes = JField.null)) ∧
    (query_polygon_layer_point x y resp = Except.error PyErr.keyError ↔
      ∃ f fs, resp.features.orDefault [] = f :: fs ∧ f.attributes = JField.absent) := by
  cases hf : resp.features.orDefault [] with
  | nil => simp [query_polygon_layer_point, hf]
  | cons f fs =>
    cases ha : f.attributes with
    | absent => simp [query_polygon_layer_point, hf, ha]
    | null => simp [query_polygon_layer_point, hf, ha]
    | val a => simp [query_polygon_layer_point, hf, ha]

/-- Claim C4 counterexample: a body whose first feature lacks the
`attributes` key makes `query_polygon_layer_point` raise `KeyError`
rather than return "no match". -/
theorem c4_malformed_body_cex :
    query_polygon_layer_point 0 0 { features := JField.val [{ attributes := JField.absent }] } =
      Except.error PyErr.keyError ∧
    (Except.error PyErr.keyError : Except PyErr (Option Attrs)) ≠ Except.ok Option.none := by
  decide

/-- Claim C4 witness: a missing `features` key is treated as "no match". -/
theorem c4_malformed_body_witness :
    query_polygon_layer_point 0 0 { features := JField.absent } = Except.ok Option.none :=
  (c4_malformed_body_amended 0 0 { features := JField.absent }).1.mpr (Or.inl rfl)

/-- Claim C5, amended.  The request trace of one `get_city_county` call
never repeats an endpoint (no retries) and is: `[geocode]` when the
candidate list is empty or the first candidate's latitude/longitude is 0
(not three requests, as the claim states for every non-empty candidate
list); `[geocode, county]` when the county body's parse raises; and
`[geocode, county, city]` once the county query parses. -/
theorem c5_request_trace_amended (address : String) (w : World) :
    ((get_city_county address w).requests.Nodup) ∧
    (w.geocode.candidates = [] →
      (get_city_county address w).requests = [RemoteCall.geocode]) ∧
    (∀ c cs, w.geocode.candidates = c :: cs → (c.locY = 0 ∨ c.locX = 0) →
      (get_city_county address w).requests = [RemoteCall.geocode]) ∧
    (∀ c cs, w.geocode.candidates = c :: cs → ¬(c.locY = 0 ∨ c.locX = 0) →
      ((∀ e, query_polygon_layer_point (wgs84_to_web_mercator c.locY c.locX).1
            (wgs84_to_web_mercator c.locY c.locX).2 w.county = Except.error e →
          (get_city_county address w).requests = [RemoteCall.geocode, RemoteCall.county]) ∧
       (∀ ca, query_polygon_layer_point (wgs84_to_web_mercator c.locY c.locX).1
            (wgs84_to_web_mercator c.locY c.locX).2 w.county = Except.ok ca →
          (get_city_county address w).requests =
            [RemoteCall.geocode, RemoteCall.county, RemoteCall.city]))) := by
  refine ⟨?_, ?_, ?_, ?_⟩
  · rcases get_city_county_requests_cases address w with h | h | h <;> rw [h] <;> decide
  · intro h
    have hg : geocode_address w.geocode = Except.ok Option.none := by
      simp [geocode_address, h]
    simp [get_city_county, hg]
  · intro c cs hcand hz
    have hg := geocode_address_cons w.geocode c cs hcand
    simp only [get_city_county, hg, if_pos hz]
  · intro c cs hcand hz
    have hg := geocode_address_cons w.geocode c cs hcand
    constructor
    · intro e hc
      simp only [get_city_county, hg, if_neg hz, hc]
    · intro ca hc
      cases hci : query_polygon_layer_point (wgs84_to_web_mercator c.locY c.locX).1
          (wgs84_to_web_mercator c.locY c.locX).2 w.city with
      | error e => simp only [get_city_county, hg, if_neg hz, hc, hci]
      | ok cia => simp only [get_city_county, hg, if_neg hz, hc, hci]

/-- Claim C5 counterexample: the geocoder returned one candidate (so
"geocoding succeeds" in the claim's sense), yet only one remote request
is issued, because the candidate's longitude is 0. -/
theorem c5_request_trace_cex :
    c5ZeroWorld.geocode.candidates.length = 1 ∧
    (get_city_county "1 Zero Island" c5ZeroWorld).requests.length = 1 := by decide

/-- Claim C5 witness: an empty candidate list yields the one-request
trace. -/
theorem c5_request_trace_witness :
    (get_city_county "2 Miss St" c5MissWorld).requests = [RemoteCall.geocode] :=
  (c5_request_trace_amended "2 Miss St" c5MissWorld).2.1 rfl

/-- Helper for the C6 witness: 90° lies beyond the clamping band. -/
lemma max_lat_lt_abs_90 : max_lat < |(90 : ℚ)| := by
  rw [abs_of_pos (by norm_num : (0 : ℚ) < 90)]
  norm_num [max_lat]

/-- Claim C6: for any latitude beyond ±85.05112878 (and in fact for any
latitude at all), `wgs84_to_web_mercator` behaves as though the latitude
were the clamped value, and the clamp is idempotent; clamping is a total
silent operation with no error path. -/
theorem c6_clamping_property (lat lon : ℚ) (hbeyond : max_lat < |lat|) :
    wgs84_to_web_mercator lat lon = wgs84_to_web_mercator (clampLat lat) lon ∧
    clampLat (clampLat lat) = clampLat lat := by
  have hidem : clampLat (clampLat lat) = clampLat lat := by
    unfold clampLat
    have hm : -max_lat ≤ max_lat := by norm_num [max_lat]
    have h1 : max (min lat max_lat) (-max_lat) ≤ max_lat :=
      max_le (min_le_right lat max_lat) hm
    rw [min_eq_left h1, max_assoc, max_self]
  refine ⟨?_, hidem⟩
  unfold wgs84_to_web_mercator
  rw [hidem]

/-- Claim C6 witness: at latitude 90 the reprojection equals the
reprojection of the clamped latitude. -/
theorem c6_clamping_property_witness :
    max_lat < |(90 : ℚ)| ∧
    (wgs84_to_web_mercator 90 0 = wgs84_to_web_mercator (clampLat 90) 0 ∧
      clampLat (clampLat 90) = clampLat 90) :=
  ⟨max_lat_lt_abs_90, c6_clamping_property 90 0 max_lat_lt_abs_90⟩

/-- Claim C7: the reconciler returns the earliest usable candidate key's
value — `{POLYGON_NM: Alameda}` with `[County, POLYGON_NM]` gives
`Alameda`; `{County: Kern, POLYGON_NM: X}` gives `Kern`; in general a
usable head key wins immediately. -/
theorem c7_reconciler_precedence :
    extract_first (some [("POLYGON_NM", PyVal.str "Alameda")]) ["County", "POLYGON_NM"] =
      some (PyVal.str "Alameda") ∧
    extract_first (some [("County", PyVal.str "Kern"), ("POLYGON_NM", PyVal.str "X")])
      ["County", "POLYGON_NM"] = some (PyVal.str "Kern") ∧
    (∀ (d : Attrs) (k : String) (rest : List String), ¬ skippedVal (dictGet d k) →
      extract_first (some d) (k :: rest) = some (dictGet d k)) :=
  ⟨by decide, by decide, extract_first_usable_head⟩

/-- Claim C7 witness: a usable head key wins at a concrete input. -/
theorem c7_reconciler_precedence_witness :
    extract_first (some [("NAME", PyVal.str "Fresno")]) ["NAME", "ALT"] =
      some (dictGet [("NAME", PyVal.str "Fresno")] "NAME") :=
  c7_reconciler_precedence.2.2 [("NAME", PyVal.str "Fresno")] "NAME" ["ALT"] (by decide)

/-- Claim C8, amended.  `wgs84_to_web_mercator` computes
`x = lon·R/180` and `y = ln(tan((90+lat')·π/360))·R/π` with
`R = 20037508.342789244` and `lat'` the CLAMPED latitude (for
`|lat| ≤ 85.05112878` this is the claim's formula verbatim); with no
error path; and `(0,0) ↦ (0,0)`, `(0,180) ↦ (R, 0)` exactly. -/
theorem c8_reprojection_amended (lat lon : ℚ) :
    wgs84_to_web_mercator lat lon =
      ((lon : ℝ) * (origin_shift : ℝ) / 180,
        Real.log (Real.tan ((90 + ((clampLat lat : ℚ) : ℝ)) * Real.pi / 360)) *
          (origin_shift : ℝ) / Real.pi) ∧
    wgs84_to_web_mercator 0 0 = (0, 0) ∧
    wgs84_to_web_mercator 0 180 = ((origin_shift : ℝ), 0) := by
  have hc0 : clampLat (0 : ℚ) = 0 := by
    rw [clampLat, min_eq_left (by norm_num [max_lat] : (0 : ℚ) ≤ max_lat),
      max_eq_left (by norm_num [max_lat] : -max_lat ≤ (0 : ℚ))]
  have hy0 : Real.log (Real.tan ((90 + ((clampLat (0 : ℚ) : ℚ) : ℝ)) * Real.pi / 360)) *
      (origin_shift : ℝ) / Real.pi = 0 := by
    rw [hc0]
    have harg : ((90 : ℝ) + (((0 : ℚ) : ℚ) : ℝ)) * Real.pi / 360 = Real.pi / 4 := by
      push_cast
      ring
    rw [harg, Real.tan_pi_div_four, Real.log_one, zero_mul, zero_div]
  refine ⟨rfl, ?_, ?_⟩
  · simp only [wgs84_to_web_mercator]
    rw [Prod.mk.injEq]
    constructor
    · push_cast
      ring
    · exact hy0
  · simp only [wgs84_to_web_mercator]
    rw [Prod.mk.injEq]
    constructor
    · push_cast
      ring
    · exact hy0

/-- Claim C8 counterexample: at latitude 90 the function does NOT compute
the claim's formula on the raw latitude — the code clamps first, so its
`y` is the (positive) value at 85.05112878°, not
`ln(tan((90+90)·π/360))·R/π`. -/
theorem c8_reprojection_cex :
    wgs84_to_web_mercator 90 0 ≠
      (((0 : ℚ) : ℝ) * (origin_shift : ℝ) / 180,
        Real.log (Real.tan ((90 + ((90 : ℚ) : ℝ)) * Real.pi / 360)) *
          (origin_shift : ℝ) / Real.pi) := by
  intro heq
  simp only [wgs84_to_web_mercator, Prod.mk.injEq] at heq
  obtain ⟨hx, h2⟩ := heq
  have hcl : clampLat (90 : ℚ) = max_lat := by
    rw [clampLat, min_eq_right (by norm_num [max_lat] : max_lat ≤ (90 : ℚ)),
      max_eq_left (by norm_num [max_lat] : -max_lat ≤ max_lat)]
  rw [hcl] at h2
  have hrhs : ((90 : ℝ) + ((90 : ℚ) : ℝ)) * Real.pi / 360 = Real.pi / 2 := by
    push_cast
    ring
  rw [hrhs, Real.tan_pi_div_two, Real.log_zero, zero_mul, zero_div] at h2
  have hml : ((max_lat : ℚ) : ℝ) = 8505112878 / 100000000 := by
    norm_num [max_lat]
  rw [hml] at h2
  have h360 : (0 : ℝ) < 360 := by norm_num
  have harg_lt : ((90 : ℝ) + 8505112878 / 100000000) * Real.pi / 360 < Real.pi / 2 := by
    have hlt : ((90 : ℝ) + 8505112878 / 100000000) * Real.pi < 180 * Real.pi :=
      mul_lt_mul_of_pos_right (by norm_num) Real.pi_pos
    have hd := (div_lt_div_iff_of_pos_right h360).mpr hlt
    calc ((90 : ℝ) + 8505112878 / 100000000) * Real.pi / 360
        < 180 * Real.pi / 360 := hd
      _ = Real.pi / 2 := by ring
  have hquarter : Real.pi / 4 < ((90 : ℝ) + 8505112878 / 100000000) * Real.pi / 360 := by
    have hlt : (90 : ℝ) * Real.pi < ((90 : ℝ) + 8505112878 / 100000000) * Real.pi :=
      mul_lt_mul_of_pos_right (by norm_num) Real.pi_pos
    have hd := (div_lt_div_iff_of_pos_right h360).mpr hlt
    calc Real.pi / 4 = (90 : ℝ) * Real.pi / 360 := by ring
      _ < ((90 : ℝ) + 8505112878 / 100000000) * Real.pi / 360 := hd
  have htan : 1 < Real.tan (((90 : ℝ) + 8505112878 / 100000000) * Real.pi / 360) := by
    rw [← Real.tan_pi_div_four]
    exact Real.tan_lt_tan_of_nonneg_of_lt_pi_div_two (by positivity) harg_lt hquarter
  have hlog : 0 < Real.log (Real.tan (((90 : ℝ) + 8505112878 / 100000000) * Real.pi / 360)) :=
    Real.log_pos htan
  have hR : (0 : ℝ) < (origin_shift : ℝ) := by norm_num [origin_shift]
  have hfin : 0 < Real.log (Real.tan (((90 : ℝ) + 8505112878 / 100000000) * Real.pi / 360)) *
      (origin_shift : ℝ) / Real.pi := by positivity
  rw [h2] at hfin
  exact lt_irrefl 0 hfin

/-- Claim C9: for any geocoder candidate, the postal city is derived from
the matched-address string as the second comma-delimited segment,
stripped; with fewer than two segments it is `None`; and in all cases
`geocode_address` returns without raising an `IndexError`. -/
theorem c9_postal_city_heuristic (resp : GeocodeResponse) (c : GeoCandidate)
    (cs : List GeoCandidate) (h : resp.candidates = c :: cs) :
    (∃ r, geocode_address resp = Except.ok r) ∧
    ((pySplitChar ',' (c.address.getD [])).length < 2 →
      geocode_address resp = Except.ok (some (c.locY, c.locX, Option.none))) ∧
    (∀ s1 s2 rest, pySplitChar ',' (c.address.getD []) = s1 :: s2 :: rest →
      geocode_address resp = Except.ok (some (c.locY, c.locX, some (pyStrip s2)))) := by
  refine ⟨⟨_, geocode_address_cons resp c cs h⟩, ?_, ?_⟩
  · intro hlen
    rw [geocode_address_cons resp c cs h]
    obtain ⟨s, ss, hsp⟩ := pySplitChar_exists_cons (',' : Char) (c.address.getD [])
    rw [hsp] at hlen ⊢
    cases ss with
    | nil => rfl
    | cons b r =>
      simp at hlen
      omega
  · intro s1 s2 rest hsp
    rw [geocode_address_cons resp c cs h, hsp]

/-- Claim C9 witness: a matched address with no comma yields an absent
postal city and no error. -/
theorem c9_postal_city_heuristic_witness :
    geocode_address c9Resp = Except.ok (some (1, 2, Option.none)) :=
  (c9_postal_city_heuristic c9Resp c9Cand [] rfl).2.1 (by decide)

/-- Claim C10: `get_city_county` is deterministic across runs — the same
address with the same three remote-service responses produces identical
results — and it neither reads nor writes any state that persists across
calls (the explicit ambient store passes through unchanged). -/
theorem c10_two_run_determinism (address : String) (w1 w2 : World) (st : LookupStore)
    (hg : w1.geocode = w2.geocode) (hco : w1.county = w2.county)
    (hci : w1.city = w2.city) :
    get_city_county address w1 = get_city_county address w2 ∧
    (get_city_county_with_state address w1 st).2 = st ∧
    (get_city_county_with_state address w1 st).1 =
      (get_city_county_with_state address w2 st).1 := by
  have hw : w1 = w2 := by
    cases w1
    cases w2
    simp_all
  subst hw
  exact ⟨rfl, rfl, rfl⟩

/-- Claim C10 witness: two runs against the same concrete world and any
given store agree, and the store is unchanged. -/
theorem c10_two_run_determinism_witness :
    get_city_county "1 Capitol Mall" c10World = get_city_county "1 Capitol Mall" c10World ∧
    (get_city_county_with_state "1 Capitol Mall" c10World []).2 = [] ∧
    (get_city_county_with_state "1 Capitol Mall" c10World []).1 =
      (get_city_county_with_state "1 Capitol Mall" c10World []).1 :=
  c10_two_run_determinism "1 Capitol Mall" c10World c10World [] rfl rfl rfl
